import Mathlib

/-!
Verification of the NCBI-MCP tool registry and dispatch engine
(`src/ncbi_mcp/handlers.py`, `src/ncbi_mcp/errors.py`).

The handlers are shallowly embedded: Python values become the inductive
`PyVal`, argument mappings become ordered association lists, the external
`ncbi_client` collaborator (not part of this repository) becomes an abstract
record of functions `Client`, and Python exceptions become the `NcbiExc`
inductive threaded through `Except`.
-/

namespace NcbiMcp

/-- Python runtime values as used by the handlers: `None`, booleans,
integers, strings, lists and string-keyed dicts (insertion ordered). -/
inductive PyVal where
  | vnone : PyVal
  | vbool : Bool → PyVal
  | vint : Int → PyVal
  | vstr : String → PyVal
  | vlist : List PyVal → PyVal
  | vdict : List (String × PyVal) → PyVal

/-- A Python `Dict[str, Any]` argument mapping, insertion ordered with
unique keys (dict semantics); lookups take the first occurrence. -/
abbrev Args := List (String × PyVal)

/-- Python truthiness (`if x:`) for the embedded values. -/
def truthy : PyVal → Bool
  | .vnone => false
  | .vbool b => b
  | .vint n => n ≠ 0
  | .vstr s => s ≠ ""
  | .vlist xs => !xs.isEmpty
  | .vdict fs => !fs.isEmpty

/-- JSON string escaping for one character (model of the stdlib encoder). -/
def jsonEscapeChar (c : Char) : String :=
  if c = '"' then "\\\""
  else if c = '\\' then "\\\\"
  else if c = '\n' then "\\n"
  else String.singleton c

/-- JSON string escaping (model of the stdlib encoder). -/
def jsonEscape (s : String) : String :=
  String.join (s.data.map jsonEscapeChar)

mutual

/-- Model of Python `json.dumps` on the embedded values (the exact
whitespace layout of `indent=2` is abstracted to a one-line rendering;
no theorem depends on the layout, only on `jsonDumps` being a single
fixed serialization function). -/
def jsonDumps : PyVal → String
  | .vnone => "null"
  | .vbool true => "true"
  | .vbool false => "false"
  | .vint n => toString n
  | .vstr s => "\"" ++ jsonEscape s ++ "\""
  | .vlist xs => "[" ++ jsonDumpsList xs ++ "]"
  | .vdict fs => "\x7b" ++ jsonDumpsFields fs ++ "\x7d"

/-- Comma-joined serialization of a JSON array body. -/
def jsonDumpsList : List PyVal → String
  | [] => ""
  | [x] => jsonDumps x
  | x :: y :: xs => jsonDumps x ++ ", " ++ jsonDumpsList (y :: xs)

/-- Comma-joined serialization of a JSON object body. -/
def jsonDumpsFields : List (String × PyVal) → String
  | [] => ""
  | [(k, v)] => "\"" ++ jsonEscape k ++ "\": " ++ jsonDumps v
  | (k, v) :: f :: fs =>
      "\"" ++ jsonEscape k ++ "\": " ++ jsonDumps v ++ ", " ++ jsonDumpsFields (f :: fs)

end

/-- Python `str()` / f-string rendering of a value (container rendering
is approximated by the JSON rendering; the handlers only interpolate
strings and integers on the paths the theorems touch). -/
def pyStr : PyVal → String
  | .vnone => "None"
  | .vbool true => "True"
  | .vbool false => "False"
  | .vint n => toString n
  | .vstr s => s
  | .vlist xs => jsonDumps (.vlist xs)
  | .vdict fs => jsonDumps (.vdict fs)

/-- Python exceptions that can cross the handler bodies: the four
collaborator failure classes re-exported by `client.py`, plus `KeyError`
from mapping indexing and a catch-all for any other runtime exception. -/
inductive NcbiExc where
  | rateLimitError : String → NcbiExc
  | authenticationError : String → NcbiExc
  | networkError : String → NcbiExc
  | ncbiError : String → NcbiExc
  | keyError : String → NcbiExc
  | otherError : String → NcbiExc
deriving DecidableEq, Repr

/-- Python `str(e)` on an exception: `KeyError` renders as the quoted
key, the others carry their message. -/
def excStr : NcbiExc → String
  | .rateLimitError m => m
  | .authenticationError m => m
  | .networkError m => m
  | .ncbiError m => m
  | .keyError k => "\x27" ++ k ++ "\x27"
  | .otherError m => m

/-- Exceptions surfaced past the dispatch boundary: `RuntimeError` from
the error-normalizing wrapper, `ValueError` from `dispatch` itself. -/
inductive PyErr where
  | runtimeError : String → PyErr
  | valueError : String → PyErr
deriving DecidableEq, Repr

/-- Logging severities used by `handle_ncbi_errors`. -/
inductive LogLevel where
  | warning : LogLevel
  | error : LogLevel
deriving DecidableEq, Repr

/-- One emitted log record. -/
structure LogEntry where
  level : LogLevel
  message : String
deriving DecidableEq, Repr

/-- Python `args[k]`: the value, or `KeyError(k)`. -/
def getItem (args : Args) (k : String) : Except NcbiExc PyVal :=
  match args.lookup k with
  | some v => .ok v
  | Option.none => .error (.keyError k)

/-- Python `args.get(k, d)`. -/
def dictGet (args : Args) (k : String) (d : PyVal) : PyVal :=
  (args.lookup k).getD d

/-- Python `k in args`. -/
def hasKey (args : Args) (k : String) : Bool :=
  (args.lookup k).isSome

/-- Python `v is None`. -/
def isNone : PyVal → Bool
  | .vnone => true
  | _ => false

/-- The kwargs comprehension the handlers all share:
`(k, v) for k, v in args.items() if k not in excl and v is not None`. -/
def extractKwargs (args : Args) (excl : List String) : Args :=
  args.filter (fun kv => decide (kv.1 ∉ excl) && !isNone kv.2)

/-- Python `len(v)`: defined on strings, lists and dicts, a `TypeError`
(modelled as a catch-all exception) otherwise. -/
def pyLen (v : PyVal) : Except NcbiExc Nat :=
  match v with
  | .vstr s => .ok s.length
  | .vlist xs => .ok xs.length
  | .vdict fs => .ok fs.length
  | _ => .error (.otherError "object has no len()")

/-- Python `str.lower()`, modelled character by character (the handlers
only compare the result against the ASCII literal `json`). -/
def pyToLowerStr (s : String) : String :=
  String.mk (s.data.map Char.toLower)

/-- Python `v.lower()`: defined on strings, an `AttributeError`
(modelled as a catch-all exception) otherwise. -/
def pyLower (v : PyVal) : Except NcbiExc String :=
  match v with
  | .vstr s => .ok (pyToLowerStr s)
  | _ => .error (.otherError "object has no attribute lower")

/-- Python `d.get(k, default)` on an embedded value expected to be a
dict; `AttributeError` (modelled as a catch-all exception) otherwise. -/
def pyObjGet (v : PyVal) (k : String) (d : PyVal) : Except NcbiExc PyVal :=
  match v with
  | .vdict fs => .ok ((fs.lookup k).getD d)
  | _ => .error (.otherError "object has no attribute get")

/-- Python `d[k]` on an embedded value expected to be a dict. -/
def pyObjIndex (v : PyVal) (k : String) : Except NcbiExc PyVal :=
  match v with
  | .vdict fs =>
      match fs.lookup k with
      | some x => .ok x
      | Option.none => .error (.keyError k)
  | _ => .error (.otherError "object is not subscriptable")

/-- The external `ncbi_client` collaborator (not part of this repository),
abstracted as the record of the methods the handlers invoke. Each method
may succeed with a Python value (or, for `efetch.fetch`, a raw string
payload) or raise one of the collaborator exceptions. Trailing `Args`
parameters are the `**kwargs` the handler forwards. -/
structure Client where
  esearch_search : PyVal → PyVal → Args → Except NcbiExc PyVal
  esearch_search_with_history : PyVal → PyVal → Args → Except NcbiExc PyVal
  efetch_fetch : PyVal → PyVal → Args → Except NcbiExc String
  efetch_fetch_from_history : PyVal → PyVal → PyVal → Args → Except NcbiExc String
  esummary_summary : PyVal → PyVal → Args → Except NcbiExc PyVal
  esummary_summary_from_history : PyVal → PyVal → PyVal → Args → Except NcbiExc PyVal
  epost_post : PyVal → PyVal → PyVal → Except NcbiExc PyVal
  elink_link : PyVal → PyVal → PyVal → Args → Except NcbiExc PyVal
  elink_link_from_history : PyVal → PyVal → PyVal → PyVal → Args → Except NcbiExc PyVal
  einfo_get_database_info : PyVal → Except NcbiExc PyVal
  einfo_get_databases : Unit → Except NcbiExc PyVal
  egquery_global_search : PyVal → Except NcbiExc PyVal
  espell_spell_check : PyVal → PyVal → Except NcbiExc PyVal
  ecitmatch_citation_match : PyVal → PyVal → Except NcbiExc PyVal
  get_databases : Unit → Except NcbiExc PyVal

/-- Body of `NCBIToolHandlers.handle_esearch` (inside the decorator). -/
def handle_esearch (c : Client) (args : Args) : Except NcbiExc String := do
  let db ← getItem args "db"
  let term ← getItem args "term"
  let kwargs := extractKwargs args ["db", "term"]
  let result ←
    if truthy (dictGet args "usehistory" (.vbool false)) then
      c.esearch_search_with_history db term kwargs
    else
      c.esearch_search db term kwargs
  pure (jsonDumps result)

/-- Body of `NCBIToolHandlers.handle_efetch` (inside the decorator). -/
def handle_efetch (c : Client) (args : Args) : Except NcbiExc String := do
  let db ← getItem args "db"
  if hasKey args "webenv" && hasKey args "query_key" then
    let webenv ← getItem args "webenv"
    let qkey ← getItem args "query_key"
    let kwargs := extractKwargs args ["db", "webenv", "query_key"]
    c.efetch_fetch_from_history db webenv qkey kwargs
  else
    let idList ← getItem args "id_list"
    let kwargs := extractKwargs args ["db", "id_list"]
    c.efetch_fetch db idList kwargs

/-- Body of `NCBIToolHandlers.handle_esummary` (inside the decorator). -/
def handle_esummary (c : Client) (args : Args) : Except NcbiExc String := do
  let db ← getItem args "db"
  if hasKey args "webenv" && hasKey args "query_key" then
    let webenv ← getItem args "webenv"
    let qkey ← getItem args "query_key"
    let kwargs := extractKwargs args ["db", "webenv", "query_key"]
    let result ← c.esummary_summary_from_history db webenv qkey kwargs
    pure (jsonDumps result)
  else
    let idList ← getItem args "id_list"
    let kwargs := extractKwargs args ["db", "id_list"]
    let result ← c.esummary_summary db idList kwargs
    pure (jsonDumps result)

/-- Body of `NCBIToolHandlers.handle_epost` (inside the decorator); the
log f-string evaluates `len(id_list)`, which can itself raise. -/
def handle_epost (c : Client) (args : Args) : Except NcbiExc String := do
  let db ← getItem args "db"
  let idList ← getItem args "id_list"
  let webenv := dictGet args "webenv" .vnone
  let _ ← pyLen idList
  let result ← c.epost_post db idList webenv
  pure (jsonDumps result)

/-- Body of `NCBIToolHandlers.handle_elink` (inside the decorator). -/
def handle_elink (c : Client) (args : Args) : Except NcbiExc String := do
  let dbfrom ← getItem args "dbfrom"
  let db ← getItem args "db"
  if hasKey args "webenv" && hasKey args "query_key" then
    let webenv ← getItem args "webenv"
    let qkey ← getItem args "query_key"
    let kwargs := extractKwargs args ["dbfrom", "db", "webenv", "query_key"]
    let result ← c.elink_link_from_history dbfrom db webenv qkey kwargs
    pure (jsonDumps result)
  else
    let idList ← getItem args "id_list"
    let kwargs := extractKwargs args ["dbfrom", "db", "id_list"]
    let result ← c.elink_link dbfrom db idList kwargs
    pure (jsonDumps result)

/-- Body of `NCBIToolHandlers.handle_einfo` (inside the decorator). -/
def handle_einfo (c : Client) (args : Args) : Except NcbiExc String := do
  let db := dictGet args "db" .vnone
  let result ←
    if truthy db then
      c.einfo_get_database_info db
    else do
      let dbs ← c.einfo_get_databases ()
      pure (PyVal.vdict [("databases", dbs)])
  pure (jsonDumps result)

/-- Body of `NCBIToolHandlers.handle_egquery` (inside the decorator). -/
def handle_egquery (c : Client) (args : Args) : Except NcbiExc String := do
  let term ← getItem args "term"
  let result ← c.egquery_global_search term
  pure (jsonDumps result)

/-- Body of `NCBIToolHandlers.handle_espell` (inside the decorator). -/
def handle_espell (c : Client) (args : Args) : Except NcbiExc String := do
  let db ← getItem args "db"
  let term ← getItem args "term"
  let result ← c.espell_spell_check db term
  pure (jsonDumps result)

/-- Body of `NCBIToolHandlers.handle_ecitmatch` (inside the decorator);
the log f-string evaluates `len(citations)`. -/
def handle_ecitmatch (c : Client) (args : Args) : Except NcbiExc String := do
  let citations ← getItem args "citations"
  let db := dictGet args "db" (.vstr "pubmed")
  let _ ← pyLen citations
  let result ← c.ecitmatch_citation_match db citations
  pure (jsonDumps result)

/-- The 50-dash separator line `"-" * 50` used by `handle_search_and_fetch`. -/
def dashSep : String :=
  String.mk (List.replicate 50 '-')

/-- Body of `NCBIToolHandlers.handle_search_and_fetch` (inside the
decorator): search bounded by `retmax`, short-circuit on a falsy
identifier list, otherwise fetch and render per `retmode`. -/
def handle_search_and_fetch (c : Client) (args : Args) : Except NcbiExc String := do
  let db ← getItem args "db"
  let term ← getItem args "term"
  let retmax := dictGet args "retmax" (.vint 10)
  let rettype := dictGet args "rettype" (.vstr "abstract")
  let retmode := dictGet args "retmode" (.vstr "text")
  let searchResult ← c.esearch_search db term [("retmax", retmax)]
  let idsVal ← pyObjGet searchResult "id_list" .vnone
  if !truthy idsVal then
    pure ("No results found for query: " ++ pyStr term)
  else
    let idList ← pyObjIndex searchResult "id_list"
    let fetchResult ← c.efetch_fetch db idList [("rettype", rettype), ("retmode", retmode)]
    let count ← pyObjGet searchResult "count" (.vint 0)
    let returned ← pyLen idList
    let combined := PyVal.vdict
      [("search_info", .vdict
          [("query", term), ("total_found", count), ("returned", .vint returned)]),
       ("records", .vstr fetchResult)]
    let retmodeStr ← pyLower retmode
    if retmodeStr == "json" then
      pure (jsonDumps combined)
    else
      pure ("Search Results for: " ++ pyStr term ++ "\n"
        ++ "Total found: " ++ pyStr count ++ "\n"
        ++ "Returned: " ++ toString returned ++ "\n"
        ++ dashSep ++ "\n"
        ++ fetchResult)

/-- Body of `NCBIToolHandlers.handle_get_databases` (inside the decorator). -/
def handle_get_databases (c : Client) (_args : Args) : Except NcbiExc String := do
  let dbs ← c.get_databases ()
  let n ← pyLen dbs
  pure (jsonDumps (PyVal.vdict [("available_databases", dbs), ("count", .vint n)]))

/-- The constant `server_info` dict built by
`NCBIToolHandlers.handle_server_info`. -/
def serverInfoVal : PyVal :=
  .vdict
    [("server_name", .vstr "NCBI-MCP Server"),
     ("version", .vstr "0.1.0"),
     ("description", .vstr "A Model Context Protocol (MCP) server that provides comprehensive access to NCBI E-utilities, enabling LLMs to search, fetch, and analyze biological data from NCBI databases."),
     ("author", .vdict
        [("name", .vstr "Ahmad Shrif"),
         ("email", .vstr "ahmad.shrif@gmail.com")]),
     ("capabilities", .vdict
        [("databases_supported", .vstr "39+ NCBI databases including PubMed, Protein, Gene, Nucleotide, and more"),
         ("eutils_supported", .vlist
            [.vstr "ESearch - Search databases for records matching a query",
             .vstr "EFetch - Retrieve full records from NCBI databases by ID",
             .vstr "ESummary - Get document summaries with key metadata",
             .vstr "ELink - Find related records across NCBI databases",
             .vstr "EPost - Upload ID lists to NCBI history server",
             .vstr "EInfo - Get database information and search fields",
             .vstr "EGQuery - Search all NCBI databases simultaneously",
             .vstr "ESpell - Get spelling suggestions for search terms",
             .vstr "ECitMatch - Match citations to PubMed IDs"]),
         ("special_features", .vlist
            [.vstr "Combined search and fetch operations",
             .vstr "Rate limiting (3 req/sec without API key, 10 req/sec with)",
             .vstr "NCBI history server support for large datasets",
             .vstr "Comprehensive error handling",
             .vstr "Command line interface"])]),
     ("use_cases", .vlist
        [.vstr "Biomedical literature search and analysis",
         .vstr "Protein and gene sequence retrieval",
         .vstr "Citation matching and bibliography management",
         .vstr "Cross-database linking and discovery",
         .vstr "Spell checking for scientific terms",
         .vstr "Large-scale bioinformatics data processing"]),
     ("technical_details", .vdict
        [("protocol", .vstr "Model Context Protocol (MCP)"),
         ("architecture", .vstr "Modular design with 5 focused components"),
         ("built_on", .vstr "Robust ncbi-client package"),
         ("python_requirement", .vstr ">=3.9"),
         ("dependencies", .vlist
            [.vstr "mcp>=1.0.0", .vstr "click>=8.0.0", .vstr "ncbi-client"])]),
     ("getting_started", .vdict
        [("installation", .vstr "pip install -e ."),
         ("start_server", .vstr "ncbi-mcp serve"),
         ("test_connection", .vstr "ncbi-mcp test"),
         ("list_tools", .vstr "ncbi-mcp list-tools"),
         ("example_search", .vstr "Search PubMed: esearch(db=\x27pubmed\x27, term=\x27cancer therapy\x27, retmax=5)")])]

/-- `NCBIToolHandlers.handle_server_info`: pure metadata, not decorated
with `handle_ncbi_errors`, never touches the client. -/
def handle_server_info (_args : Args) : String :=
  jsonDumps serverInfoVal

/-- The `handle_ncbi_errors` decorator from `errors.py`, applied to the
outcome of a handler body: success passes through; each collaborator
exception class is logged (warning for rate limiting, error otherwise)
and re-raised as `RuntimeError` with the classifying message prefix; any
other exception is logged via `logger.exception` (error severity, fixed
message) and re-raised as `RuntimeError("Unexpected error: ...")`. -/
def handle_ncbi_errors (r : Except NcbiExc String) :
    Except PyErr String × List LogEntry :=
  match r with
  | .ok s => (.ok s, [])
  | .error (.rateLimitError m) =>
      (.error (.runtimeError ("NCBI rate limit exceeded: " ++ m)),
       [⟨.warning, "NCBI rate limit exceeded: " ++ m⟩])
  | .error (.authenticationError m) =>
      (.error (.runtimeError ("NCBI authentication failed: " ++ m)),
       [⟨.error, "NCBI authentication failed: " ++ m⟩])
  | .error (.networkError m) =>
      (.error (.runtimeError ("NCBI network error: " ++ m)),
       [⟨.error, "NCBI network error: " ++ m⟩])
  | .error (.ncbiError m) =>
      (.error (.runtimeError ("NCBI error: " ++ m)),
       [⟨.error, "NCBI error: " ++ m⟩])
  | .error e =>
      (.error (.runtimeError ("Unexpected error: " ++ excStr e)),
       [⟨.error, "Unexpected error in NCBI operation"⟩])

/-- A dispatch-level handler: decorated result plus emitted log records. -/
abbrev HandlerOut := Except PyErr String × List LogEntry

/-- Wrap one decorated handler body for the dispatch table. -/
def wrapped (f : Client → Args → Except NcbiExc String) (c : Client)
    (args : Args) : HandlerOut :=
  handle_ncbi_errors (f c args)

/-- The fixed `handlers` mapping built inside `NCBIToolHandlers.dispatch`
(insertion order preserved). `server_info` is the one undecorated entry. -/
def handlersTable (c : Client) : List (String × (Args → HandlerOut)) :=
  [("esearch", wrapped handle_esearch c),
   ("efetch", wrapped handle_efetch c),
   ("esummary", wrapped handle_esummary c),
   ("epost", wrapped handle_epost c),
   ("elink", wrapped handle_elink c),
   ("einfo", wrapped handle_einfo c),
   ("egquery", wrapped handle_egquery c),
   ("espell", wrapped handle_espell c),
   ("ecitmatch", wrapped handle_ecitmatch c),
   ("search_and_fetch", wrapped handle_search_and_fetch c),
   ("get_databases", wrapped handle_get_databases c),
   ("server_info", fun args => (.ok (handle_server_info args), []))]

/-- `NCBIToolHandlers.dispatch`: look the name up in the fixed mapping;
an unknown name raises `ValueError(f"Unknown tool: {name}")` before any
handler runs. -/
def dispatch (c : Client) (name : String) (arguments : Args) : HandlerOut :=
  match (handlersTable c).lookup name with
  | some h => h arguments
  | Option.none => (.error (.valueError ("Unknown tool: " ++ name)), [])

/-- The operation names of the fixed catalog, in table order. -/
def catalogNames : List String :=
  ["esearch", "efetch", "esummary", "epost", "elink", "einfo", "egquery",
   "espell", "ecitmatch", "search_and_fetch", "get_databases", "server_info"]

/-- Does the dispatch outcome carry a validation-style failure
(`ValueError`, the only validation-failure class the engine raises)? -/
def isValidationFailure (o : HandlerOut) : Bool :=
  match o.1 with
  | .error (.valueError _) => true
  | _ => false

/-- A concrete collaborator with fixed benign responses, used to
instantiate universally quantified theorems. -/
def baseClient : Client where
  esearch_search := fun _ _ _ => .ok (.vdict [("id_list", .vlist [.vstr "1"]), ("count", .vint 1)])
  esearch_search_with_history := fun _ _ _ => .ok .vnone
  efetch_fetch := fun _ _ _ => .ok "payload"
  efetch_fetch_from_history := fun _ _ _ _ => .ok "history payload"
  esummary_summary := fun _ _ _ => .ok .vnone
  esummary_summary_from_history := fun _ _ _ _ => .ok .vnone
  epost_post := fun _ _ _ => .ok .vnone
  elink_link := fun _ _ _ _ => .ok .vnone
  elink_link_from_history := fun _ _ _ _ _ => .ok .vnone
  einfo_get_database_info := fun _ => .ok .vnone
  einfo_get_databases := fun _ => .ok (.vlist [])
  egquery_global_search := fun _ => .ok .vnone
  espell_spell_check := fun _ _ => .ok .vnone
  ecitmatch_citation_match := fun _ _ => .ok .vnone
  get_databases := fun _ => .ok (.vlist [])

/-- A collaborator whose history-addressed methods report whether the
forwarded keyword parameters still contain `id_list`. -/
def historyProbeClient : Client :=
  { baseClient with
    efetch_fetch_from_history := fun _ _ _ kwargs =>
      .ok (if (kwargs.lookup "id_list").isSome then
             "history call received id_list" else "history call without id_list") }

/-- A collaborator whose direct fetch method reports being invoked with
an empty identifier list. -/
def emptyListProbeClient : Client :=
  { baseClient with
    efetch_fetch := fun _ idList _ =>
      match idList with
      | .vlist [] => .ok "fetch invoked with empty id_list"
      | _ => .ok "fetch" }

/-- A collaborator whose history-mode search reports whether the
forwarded keyword parameters still contain `usehistory`. -/
def usehistoryProbeClient : Client :=
  { baseClient with
    esearch_search_with_history := fun _ _ kwargs =>
      .ok (.vstr (if (kwargs.lookup "usehistory").isSome then
                    "kwargs include usehistory" else "usehistory stripped")) }

/-- A collaborator whose search reports zero matches. -/
def zeroResultsClient : Client :=
  { baseClient with
    esearch_search := fun _ _ _ =>
      .ok (.vdict [("id_list", .vlist []), ("count", .vint 0)]) }

/-- Does `pat` occur as a contiguous segment of `l`? -/
def listHasSeg (pat : List Char) : List Char → Bool
  | [] => pat.isEmpty
  | c :: cs => pat.isPrefixOf (c :: cs) || listHasSeg pat cs

/-- Does `pat` occur as a contiguous substring of `s`? -/
def strHasSeg (s pat : String) : Bool :=
  listHasSeg pat.data s.data

/-- Argument mapping carrying a complete history reference together with
a direct identifier list (and a `dbfrom` so it serves `elink` too). -/
def sampleHistoryArgs : Args :=
  [("db", .vstr "pubmed"), ("dbfrom", .vstr "gene"), ("webenv", .vstr "W"),
   ("query_key", .vstr "1"), ("id_list", .vlist [.vstr "9"])]

/-- Argument mapping carrying neither a history reference nor an
identifier list. -/
def sampleMissingArgs : Args :=
  [("db", .vstr "pubmed"), ("dbfrom", .vstr "gene")]

/-! ## Helper lemmas -/

theorem exc_bind_ok {ε α β : Type} (a : α) (f : α → Except ε β) :
    (Except.ok a : Except ε α) >>= f = f a := rfl

theorem exc_bind_error {ε α β : Type} (e : ε) (f : α → Except ε β) :
    (Except.error e : Except ε α) >>= f = Except.error e := rfl

theorem exc_pure {ε α : Type} (a : α) :
    (pure a : Except ε α) = Except.ok a := rfl

theorem lookup_filter_first (l : Args) (p : String × PyVal → Bool) (k : String)
    (v : PyVal) (h : l.lookup k = some v) (hp : p (k, v) = true) :
    (l.filter p).lookup k = some v := by
  induction l with
  | nil => simp [List.lookup] at h
  | cons kv tl ih =>
      obtain ⟨k1, v1⟩ := kv
      rw [List.lookup] at h
      by_cases hk : (k == k1)
      · rw [hk] at h
        simp only [Option.some.injEq] at h
        have hkk : k = k1 := eq_of_beq hk
        subst hkk
        subst h
        rw [List.filter, hp, List.lookup]
        simp
      · rw [Bool.not_eq_true] at hk
        rw [hk] at h
        simp only at h
        have htl := ih h
        rw [List.filter]
        cases hp1 : p (k1, v1) with
        | true => rw [List.lookup, hk]; exact htl
        | false => exact htl

theorem lookup_extractKwargs (args : Args) (excl : List String) (k : String)
    (v : PyVal) (h : args.lookup k = some v) (hex : k ∉ excl)
    (hv : isNone v = false) :
    (extractKwargs args excl).lookup k = some v := by
  apply lookup_filter_first _ _ _ _ h
  simp [hex, hv]

/-! ## C1 -/

/-- C1 (amended): for `efetch`, `esummary` and `elink`, an argument
mapping containing both a complete history-reference pair
(`webenv`, `query_key`) and an `id_list` deterministically selects the
history-reference mode and invokes the collaborator's history-based
call — but the `id_list` value is not dropped for that call: it is
forwarded to the history-based call among the remaining keyword
parameters (only `db`, `webenv`, `query_key` — plus `dbfrom` for
`elink` — are consumed by the addressing decision). -/
theorem c1_history_precedence (c : Client) (args : Args)
    (dbv dbfromv wv qv idv : PyVal)
    (hdb : args.lookup "db" = some dbv)
    (hdbfrom : args.lookup "dbfrom" = some dbfromv)
    (hw : args.lookup "webenv" = some wv)
    (hq : args.lookup "query_key" = some qv)
    (hid : args.lookup "id_list" = some idv)
    (hidn : isNone idv = false) :
    handle_efetch c args
        = c.efetch_fetch_from_history dbv wv qv
            (extractKwargs args ["db", "webenv", "query_key"])
    ∧ handle_esummary c args
        = Except.map jsonDumps
            (c.esummary_summary_from_history dbv wv qv
              (extractKwargs args ["db", "webenv", "query_key"]))
    ∧ handle_elink c args
        = Except.map jsonDumps
            (c.elink_link_from_history dbfromv dbv wv qv
              (extractKwargs args ["dbfrom", "db", "webenv", "query_key"]))
    ∧ (extractKwargs args ["db", "webenv", "query_key"]).lookup "id_list" = some idv
    ∧ (extractKwargs args ["dbfrom", "db", "webenv", "query_key"]).lookup "id_list"
        = some idv := by
  refine ⟨?_, ?_, ?_, ?_, ?_⟩
  · simp [handle_efetch, getItem, hdb, hw, hq, hasKey, exc_bind_ok]
  · simp [handle_esummary, getItem, hdb, hw, hq, hasKey, exc_bind_ok]
    cases c.esummary_summary_from_history dbv wv qv
        (extractKwargs args ["db", "webenv", "query_key"]) <;>
      simp [exc_bind_ok, exc_bind_error, Except.map]
  · simp [handle_elink, getItem, hdb, hdbfrom, hw, hq, hasKey, exc_bind_ok]
    cases c.elink_link_from_history dbfromv dbv wv qv
        (extractKwargs args ["dbfrom", "db", "webenv", "query_key"]) <;>
      simp [exc_bind_ok, exc_bind_error, Except.map]
  · exact lookup_extractKwargs args _ _ _ hid (by simp) hidn
  · exact lookup_extractKwargs args _ _ _ hid (by simp) hidn

/-- C1 counterexample: a collaborator that observes its keyword
parameters distinguishes the presence of `id_list` in the history-mode
call, so `id_list` is not ignored when both addressing groups are
supplied: the same call without `id_list` produces a different result. -/
theorem c1_counterexample :
    handle_efetch historyProbeClient
        [("db", .vstr "pubmed"), ("id_list", .vlist [.vstr "12345"]),
         ("webenv", .vstr "WEB1"), ("query_key", .vstr "1")]
      = Except.ok "history call received id_list"
    ∧ handle_efetch historyProbeClient
        [("db", .vstr "pubmed"),
         ("webenv", .vstr "WEB1"), ("query_key", .vstr "1")]
      = Except.ok "history call without id_list" :=
  ⟨rfl, rfl⟩

/-- C1 witness: the amended theorem instantiated at a concrete argument
mapping carrying both addressing groups. -/
theorem c1_witness :
    handle_efetch baseClient sampleHistoryArgs
        = baseClient.efetch_fetch_from_history (.vstr "pubmed") (.vstr "W") (.vstr "1")
            (extractKwargs sampleHistoryArgs ["db", "webenv", "query_key"])
    ∧ handle_esummary baseClient sampleHistoryArgs
        = Except.map jsonDumps
            (baseClient.esummary_summary_from_history (.vstr "pubmed") (.vstr "W") (.vstr "1")
              (extractKwargs sampleHistoryArgs ["db", "webenv", "query_key"]))
    ∧ handle_elink baseClient sampleHistoryArgs
        = Except.map jsonDumps
            (baseClient.elink_link_from_history (.vstr "gene") (.vstr "pubmed") (.vstr "W") (.vstr "1")
              (extractKwargs sampleHistoryArgs ["dbfrom", "db", "webenv", "query_key"]))
    ∧ (extractKwargs sampleHistoryArgs ["db", "webenv", "query_key"]).lookup "id_list"
        = some (.vlist [.vstr "9"])
    ∧ (extractKwargs sampleHistoryArgs ["dbfrom", "db", "webenv", "query_key"]).lookup "id_list"
        = some (.vlist [.vstr "9"]) :=
  c1_history_precedence baseClient sampleHistoryArgs _ _ _ _ _
    (by rfl) (by rfl) (by rfl) (by rfl) (by rfl) (by rfl)

/-! ## C2 -/

/-- C2 (amended): for `efetch`, `esummary` and `elink`, an argument
mapping containing neither a complete history-reference pair nor an
`id_list` key fails before any collaborator call is made (the outcome is
the same for every collaborator `c`) — but not with a
`MissingAddressing` validation error: the handler's `args["id_list"]`
indexing raises `KeyError`, which the error normalizer surfaces as the
catch-all `RuntimeError("Unexpected error: 'id_list'")`, logged at error
severity with the fixed message `Unexpected error in NCBI operation`. -/
theorem c2_missing_addressing (c : Client) (args : Args)
    (dbv dbfromv : PyVal)
    (hdb : args.lookup "db" = some dbv)
    (hdbfrom : args.lookup "dbfrom" = some dbfromv)
    (hhist : (hasKey args "webenv" && hasKey args "query_key") = false)
    (hid : args.lookup "id_list" = Option.none) :
    wrapped handle_efetch c args
        = (Except.error (PyErr.runtimeError "Unexpected error: \x27id_list\x27"),
           [⟨LogLevel.error, "Unexpected error in NCBI operation"⟩])
    ∧ wrapped handle_esummary c args
        = (Except.error (PyErr.runtimeError "Unexpected error: \x27id_list\x27"),
           [⟨LogLevel.error, "Unexpected error in NCBI operation"⟩])
    ∧ wrapped handle_elink c args
        = (Except.error (PyErr.runtimeError "Unexpected error: \x27id_list\x27"),
           [⟨LogLevel.error, "Unexpected error in NCBI operation"⟩]) := by
  refine ⟨?_, ?_, ?_⟩
  · simp [wrapped, handle_ncbi_errors, handle_efetch, getItem, hdb, hhist, hid,
      exc_bind_ok, exc_bind_error, excStr]
  · simp [wrapped, handle_ncbi_errors, handle_esummary, getItem, hdb, hhist, hid,
      exc_bind_ok, exc_bind_error, excStr]
  · simp [wrapped, handle_ncbi_errors, handle_elink, getItem, hdb, hdbfrom, hhist, hid,
      exc_bind_ok, exc_bind_error, excStr]

/-- C2 counterexample: with neither addressing group supplied, the
decorated `efetch` handler fails with the catch-all
`RuntimeError("Unexpected error: 'id_list'")` — a runtime failure of the
Unexpected kind, not a validation failure of any kind. -/
theorem c2_counterexample :
    (wrapped handle_efetch baseClient [("db", PyVal.vstr "pubmed")]).1
      = Except.error (PyErr.runtimeError "Unexpected error: \x27id_list\x27")
    ∧ isValidationFailure (wrapped handle_efetch baseClient [("db", PyVal.vstr "pubmed")])
      = false :=
  ⟨rfl, rfl⟩

/-- C2 witness: the amended theorem instantiated at a concrete argument
mapping with neither addressing group. -/
theorem c2_witness :
    wrapped handle_efetch baseClient sampleMissingArgs
        = (Except.error (PyErr.runtimeError "Unexpected error: \x27id_list\x27"),
           [⟨LogLevel.error, "Unexpected error in NCBI operation"⟩])
    ∧ wrapped handle_esummary baseClient sampleMissingArgs
        = (Except.error (PyErr.runtimeError "Unexpected error: \x27id_list\x27"),
           [⟨LogLevel.error, "Unexpected error in NCBI operation"⟩])
    ∧ wrapped handle_elink baseClient sampleMissingArgs
        = (Except.error (PyErr.runtimeError "Unexpected error: \x27id_list\x27"),
           [⟨LogLevel.error, "Unexpected error in NCBI operation"⟩]) :=
  c2_missing_addressing baseClient sampleMissingArgs _ _
    (by rfl) (by rfl) (by rfl) (by rfl)

/-! ## C3 -/

/-- C3: a name outside the fixed catalog makes `dispatch` fail with the
engine's validation failure (`ValueError`) whose message carries the
requested name, no handler is invoked and no collaborator is reached
(the outcome is a collaborator-free constant); every name in the catalog
is dispatched to exactly the handler mapped to it. -/
theorem c3_dispatch (c : Client) (name : String) (args : Args) :
    (name ∉ catalogNames →
      dispatch c name args
        = (Except.error (PyErr.valueError ("Unknown tool: " ++ name)), []))
    ∧ dispatch c "esearch" args = wrapped handle_esearch c args
    ∧ dispatch c "efetch" args = wrapped handle_efetch c args
    ∧ dispatch c "esummary" args = wrapped handle_esummary c args
    ∧ dispatch c "epost" args = wrapped handle_epost c args
    ∧ dispatch c "elink" args = wrapped handle_elink c args
    ∧ dispatch c "einfo" args = wrapped handle_einfo c args
    ∧ dispatch c "egquery" args = wrapped handle_egquery c args
    ∧ dispatch c "espell" args = wrapped handle_espell c args
    ∧ dispatch c "ecitmatch" args = wrapped handle_ecitmatch c args
    ∧ dispatch c "search_and_fetch" args = wrapped handle_search_and_fetch c args
    ∧ dispatch c "get_databases" args = wrapped handle_get_databases c args
    ∧ dispatch c "server_info" args = (Except.ok (handle_server_info args), []) := by
  refine ⟨?_, rfl, rfl, rfl, rfl, rfl, rfl, rfl, rfl, rfl, rfl, rfl, rfl⟩
  intro hn
  simp only [catalogNames, List.mem_cons, List.not_mem_nil, or_false, not_or] at hn
  obtain ⟨h1, h2, h3, h4, h5, h6, h7, h8, h9, h10, h11, h12⟩ := hn
  simp [dispatch, handlersTable, List.lookup,
    beq_eq_false_iff_ne.mpr h1, beq_eq_false_iff_ne.mpr h2,
    beq_eq_false_iff_ne.mpr h3, beq_eq_false_iff_ne.mpr h4,
    beq_eq_false_iff_ne.mpr h5, beq_eq_false_iff_ne.mpr h6,
    beq_eq_false_iff_ne.mpr h7, beq_eq_false_iff_ne.mpr h8,
    beq_eq_false_iff_ne.mpr h9, beq_eq_false_iff_ne.mpr h10,
    beq_eq_false_iff_ne.mpr h11, beq_eq_false_iff_ne.mpr h12]

/-- C3 witness: the dispatch theorem instantiated at the unknown name
`frobnicate`, discharging the membership hypothesis by computation. -/
theorem c3_witness :
    dispatch baseClient "frobnicate" []
      = (Except.error (PyErr.valueError "Unknown tool: frobnicate"), []) :=
  (c3_dispatch baseClient "frobnicate" []).1 (by decide)

/-! ## C4 -/

/-- C4 (amended): a `search_and_fetch` call whose search step yields a
falsy identifier list (in particular, zero identifiers) returns
successfully with the fixed string `No results found for query: <term>`
(capitalized, with the word `found`), and the fetch step is never
invoked: the outcome only depends on the collaborator's search method. -/
theorem c4_no_results (c : Client) (args : Args) (dbv termv sr idsv : PyVal)
    (hdb : args.lookup "db" = some dbv)
    (hterm : args.lookup "term" = some termv)
    (hsearch : c.esearch_search dbv termv [("retmax", dictGet args "retmax" (.vint 10))]
        = .ok sr)
    (hids : pyObjGet sr "id_list" .vnone = .ok idsv)
    (hfalsy : truthy idsv = false) :
    wrapped handle_search_and_fetch c args
      = (Except.ok ("No results found for query: " ++ pyStr termv), [])
    ∧ ∀ c' : Client, c'.esearch_search = c.esearch_search →
        wrapped handle_search_and_fetch c' args
          = wrapped handle_search_and_fetch c args := by
  constructor
  · simp [wrapped, handle_ncbi_errors, handle_search_and_fetch, getItem,
      hdb, hterm, hsearch, hids, hfalsy, exc_bind_ok, exc_pure]
  · intro c' hc
    have hsearch' :
        c'.esearch_search dbv termv [("retmax", dictGet args "retmax" (.vint 10))]
          = .ok sr := by rw [hc]; exact hsearch
    simp [wrapped, handle_ncbi_errors, handle_search_and_fetch, getItem,
      hdb, hterm, hsearch, hsearch', hids, hfalsy, exc_bind_ok, exc_pure]

/-- C4 counterexample: the zero-result terminal string actually produced
is `No results found for query: cancer`, which is not the claimed fixed
string `no results for query: cancer`. -/
theorem c4_counterexample :
    (wrapped handle_search_and_fetch zeroResultsClient
        [("db", .vstr "pubmed"), ("term", .vstr "cancer")]).1
      = Except.ok "No results found for query: cancer"
    ∧ "No results found for query: cancer" ≠ "no results for query: cancer" :=
  ⟨rfl, by decide⟩

/-- C4 witness: the amended theorem instantiated at a collaborator whose
search reports zero matches. -/
theorem c4_witness :
    wrapped handle_search_and_fetch zeroResultsClient
        [("db", .vstr "pubmed"), ("term", .vstr "cancer")]
      = (Except.ok ("No results found for query: " ++ pyStr (.vstr "cancer")), []) :=
  (c4_no_results zeroResultsClient [("db", .vstr "pubmed"), ("term", .vstr "cancer")]
    (.vstr "pubmed") (.vstr "cancer")
    (.vdict [("id_list", .vlist []), ("count", .vint 0)]) (.vlist [])
    (by rfl) (by rfl) (by rfl) (by rfl) (by rfl)).1

/-! ## C5 -/

/-- C5: a successful `search_and_fetch` whose search step yields a
non-empty identifier list produces, when `retmode` lowercases to `json`,
the serialized structured object whose `search_info` carries
`query = term`, `total_found = ` the provider-reported count and
`returned = min(matches, retmax)` (the number of identifiers returned),
and whose `records` equals the fetch payload; for any other `retmode`
the result is the 4-line header (`Search Results for: <term>`,
`Total found: <n>`, `Returned: <n>`, the 50-dash separator) followed
verbatim by the fetch payload. -/
theorem c5_nonempty_result (c : Client) (args : Args)
    (dbv : PyVal) (t mode payload : String)
    (srFields : List (String × PyVal)) (ids : List PyVal) (n rm : Int)
    (hdb : args.lookup "db" = some dbv)
    (hterm : args.lookup "term" = some (.vstr t))
    (hretmax : dictGet args "retmax" (.vint 10) = .vint rm)
    (hretmode : dictGet args "retmode" (.vstr "text") = .vstr mode)
    (hsearch : c.esearch_search dbv (.vstr t) [("retmax", .vint rm)]
        = .ok (.vdict srFields))
    (hids : srFields.lookup "id_list" = some (.vlist ids))
    (hne : ids ≠ [])
    (hcount : srFields.lookup "count" = some (.vint n))
    (hfetch : c.efetch_fetch dbv (.vlist ids)
        [("rettype", dictGet args "rettype" (.vstr "abstract")),
         ("retmode", .vstr mode)] = .ok payload)
    (hmin : (ids.length : Int) = min n rm) :
    (pyToLowerStr mode = "json" →
      wrapped handle_search_and_fetch c args
        = (Except.ok (jsonDumps (.vdict
            [("search_info", .vdict
                [("query", .vstr t), ("total_found", .vint n),
                 ("returned", .vint (min n rm))]),
             ("records", .vstr payload)])), []))
    ∧ (pyToLowerStr mode ≠ "json" →
      wrapped handle_search_and_fetch c args
        = (Except.ok ("Search Results for: " ++ t ++ "\n"
            ++ "Total found: " ++ toString n ++ "\n"
            ++ "Returned: " ++ toString ids.length ++ "\n"
            ++ dashSep ++ "\n" ++ payload), [])) := by
  have hne' : ids.isEmpty = false := by
    cases ids with
    | nil => exact absurd rfl hne
    | cons x xs => rfl
  constructor
  · intro hmode
    rw [← hmin]
    simp [wrapped, handle_ncbi_errors, handle_search_and_fetch, getItem, hdb, hterm,
      hretmax, hretmode, hsearch, hids, hne', hcount, hfetch, pyObjGet, pyObjIndex,
      pyLen, pyLower, truthy, pyStr, hmode, exc_bind_ok, exc_pure]
  · intro hmode
    simp [wrapped, handle_ncbi_errors, handle_search_and_fetch, getItem, hdb, hterm,
      hretmax, hretmode, hsearch, hids, hne', hcount, hfetch, pyObjGet, pyObjIndex,
      pyLen, pyLower, truthy, pyStr, hmode, exc_bind_ok, exc_pure]

/-- C5 witness: the theorem instantiated at a collaborator returning one
identifier and one match, with `retmax = 1` and structured `retmode`. -/
theorem c5_witness :
    wrapped handle_search_and_fetch baseClient
        [("db", .vstr "pubmed"), ("term", .vstr "cancer"),
         ("retmax", .vint 1), ("retmode", .vstr "json")]
      = (Except.ok (jsonDumps (.vdict
          [("search_info", .vdict
              [("query", .vstr "cancer"), ("total_found", .vint 1),
               ("returned", .vint (min 1 1))]),
           ("records", .vstr "payload")])), []) :=
  (c5_nonempty_result baseClient
    [("db", .vstr "pubmed"), ("term", .vstr "cancer"),
     ("retmax", .vint 1), ("retmode", .vstr "json")]
    (.vstr "pubmed") "cancer" "json" "payload"
    [("id_list", .vlist [.vstr "1"]), ("count", .vint 1)]
    [.vstr "1"] 1 1
    (by rfl) (by rfl) (by rfl) (by rfl) (by rfl) (by rfl)
    (by simp) (by rfl) (by rfl) (by decide)).1 (by decide)

/-! ## C6 -/

theorem listHasSeg_append (pat xs ys : List Char) :
    listHasSeg pat (xs ++ (pat ++ ys)) = true := by
  induction xs with
  | nil =>
      simp only [List.nil_append]
      cases pat with
      | nil =>
          cases ys <;> simp [listHasSeg, List.isPrefixOf]
      | cons p ps =>
          have hpre : (p :: ps).isPrefixOf ((p :: ps) ++ ys) = true := by
            rw [List.isPrefixOf_iff_prefix]
            exact List.prefix_append _ _
          rw [List.cons_append] at hpre ⊢
          simp [listHasSeg, hpre]
  | cons x xs ih =>
      simp [listHasSeg, ih]

theorem strHasSeg_claimed_form (kind ctx msg : String) :
    strHasSeg (kind ++ " in " ++ ctx ++ ": " ++ msg) " in " = true := by
  have hdata : (kind ++ " in " ++ ctx ++ ": " ++ msg).data
      = kind.data ++ (" in ".data ++ (ctx.data ++ (": ".data ++ msg.data))) := by
    simp [String.data_append]
  rw [strHasSeg, hdata, ← List.append_assoc (" in ".data)]
  rw [List.append_assoc (" in ".data)]
  exact listHasSeg_append _ _ _

/-- C6 (amended): the error normalizer maps each recognized collaborator
failure kind, and any unrecognized failure, to exactly one corresponding
`RuntimeError` of the single uniform failure type, whose message has the
form `<classified-kind>: <original message>` — with no
operation-context component — and therefore carries the original
message verbatim as a suffix; rate-limit failures are logged at warning
severity, every other kind (including the fixed
`Unexpected error in NCBI operation` record) at error severity, and
successes pass through unchanged with nothing logged. -/
theorem c6_error_normalizer (m s : String) :
    handle_ncbi_errors (Except.ok s) = (Except.ok s, [])
    ∧ handle_ncbi_errors (.error (.rateLimitError m))
        = (.error (.runtimeError ("NCBI rate limit exceeded: " ++ m)),
           [⟨.warning, "NCBI rate limit exceeded: " ++ m⟩])
    ∧ handle_ncbi_errors (.error (.authenticationError m))
        = (.error (.runtimeError ("NCBI authentication failed: " ++ m)),
           [⟨.error, "NCBI authentication failed: " ++ m⟩])
    ∧ handle_ncbi_errors (.error (.networkError m))
        = (.error (.runtimeError ("NCBI network error: " ++ m)),
           [⟨.error, "NCBI network error: " ++ m⟩])
    ∧ handle_ncbi_errors (.error (.ncbiError m))
        = (.error (.runtimeError ("NCBI error: " ++ m)),
           [⟨.error, "NCBI error: " ++ m⟩])
    ∧ handle_ncbi_errors (.error (.otherError m))
        = (.error (.runtimeError ("Unexpected error: " ++ m)),
           [⟨.error, "Unexpected error in NCBI operation"⟩]) :=
  ⟨rfl, rfl, rfl, rfl, rfl, rfl⟩

/-- C6 counterexample: the message actually raised for a rate-limit
failure is `NCBI rate limit exceeded: boom`; it contains no ` in `
segment at all, whereas every message of the claimed form
`<classified-kind> in <context>: <original message>` does (see
`strHasSeg_claimed_form`), so the raised message is not of the claimed
form for any context. -/
theorem c6_counterexample :
    (handle_ncbi_errors (.error (.rateLimitError "boom"))).1
      = Except.error (PyErr.runtimeError "NCBI rate limit exceeded: boom")
    ∧ strHasSeg "NCBI rate limit exceeded: boom" " in " = false :=
  ⟨rfl, by decide⟩

/-! ## C7 -/

/-- C7: for every argument mapping, the `server_info` operation
dispatches to a constant serialized metadata object: it always succeeds,
emits no log records, never invokes any collaborator method, and
bypasses the error-normalizing wrapper (the outcome is identical for
every collaborator, reachable or not). -/
theorem c7_server_info (c : Client) (args : Args) :
    dispatch c "server_info" args = (Except.ok (jsonDumps serverInfoVal), [])
    ∧ ∀ c' : Client, dispatch c' "server_info" args = dispatch c "server_info" args := by
  exact ⟨rfl, fun c' => rfl⟩

/-! ## C8 -/

/-- C8 (amended): an alternate-addressing operation called in
direct-identifier mode with an empty `id_list` is not rejected: no
`EmptyRequiredField` validation exists, and the call is forwarded to the
collaborator with the empty list (`efetch` invokes the direct fetch,
`epost` invokes the post, both receiving the empty list). -/
theorem c8_empty_list_forwarded (c : Client) (args argsP : Args)
    (dbv dbvP : PyVal)
    (hdb : args.lookup "db" = some dbv)
    (hhist : (hasKey args "webenv" && hasKey args "query_key") = false)
    (hid : args.lookup "id_list" = some (.vlist []))
    (hdbP : argsP.lookup "db" = some dbvP)
    (hidP : argsP.lookup "id_list" = some (.vlist [])) :
    handle_efetch c args
      = c.efetch_fetch dbv (.vlist []) (extractKwargs args ["db", "id_list"])
    ∧ handle_epost c argsP
      = Except.map jsonDumps
          (c.epost_post dbvP (.vlist []) (dictGet argsP "webenv" .vnone)) := by
  constructor
  · simp [handle_efetch, getItem, hdb, hhist, hid, exc_bind_ok]
  · simp [handle_epost, getItem, hdbP, hidP, pyLen, exc_bind_ok]
    cases c.epost_post dbvP (.vlist []) (dictGet argsP "webenv" .vnone) <;>
      simp [exc_bind_ok, exc_bind_error, exc_pure, Except.map]

/-- C8 counterexample: with an empty `id_list` and no history reference,
the decorated `efetch` handler reaches the collaborator's direct fetch
call (observed via a probing collaborator) and succeeds — it does not
fail with a validation error of any kind. -/
theorem c8_counterexample :
    (wrapped handle_efetch emptyListProbeClient
        [("db", .vstr "pubmed"), ("id_list", .vlist [])]).1
      = Except.ok "fetch invoked with empty id_list"
    ∧ isValidationFailure (wrapped handle_efetch emptyListProbeClient
        [("db", .vstr "pubmed"), ("id_list", .vlist [])]) = false :=
  ⟨rfl, rfl⟩

/-- C8 witness: the amended theorem instantiated at a concrete mapping
with an empty identifier list. -/
theorem c8_witness :
    handle_efetch baseClient [("db", .vstr "pubmed"), ("id_list", .vlist [])]
      = baseClient.efetch_fetch (.vstr "pubmed") (.vlist [])
          (extractKwargs [("db", .vstr "pubmed"), ("id_list", .vlist [])] ["db", "id_list"])
    ∧ handle_epost baseClient [("db", .vstr "pubmed"), ("id_list", .vlist [])]
      = Except.map jsonDumps
          (baseClient.epost_post (.vstr "pubmed") (.vlist [])
            (dictGet [("db", .vstr "pubmed"), ("id_list", .vlist [])] "webenv" .vnone)) :=
  c8_empty_list_forwarded baseClient
    [("db", .vstr "pubmed"), ("id_list", .vlist [])]
    [("db", .vstr "pubmed"), ("id_list", .vlist [])] _ _
    (by rfl) (by rfl) (by rfl) (by rfl) (by rfl)

/-! ## C9 -/

/-- C9 (amended): for `esearch`, after consuming `db` and `term` the
remaining non-`None` keys are forwarded verbatim as keyword parameters
(`None`-valued or absent keys dropped) — but the control parameter
`usehistory` is not stripped: when it is present and truthy the
history-mode search is chosen and `usehistory` itself is forwarded among
the keyword parameters. `epost` forwards no remaining keys at all: only
`db`, `id_list` and `webenv` (the latter even when `None`) reach the
collaborator. -/
theorem c9_kwargs_forwarding (c : Client) (args argsP : Args)
    (dbv termv uv dbvP idlP : PyVal) (nP : Nat)
    (hdb : args.lookup "db" = some dbv)
    (hterm : args.lookup "term" = some termv)
    (huse : args.lookup "usehistory" = some uv)
    (hut : truthy uv = true)
    (hun : isNone uv = false)
    (hdbP : argsP.lookup "db" = some dbvP)
    (hidP : argsP.lookup "id_list" = some idlP)
    (hlenP : pyLen idlP = .ok nP) :
    handle_esearch c args
      = Except.map jsonDumps
          (c.esearch_search_with_history dbv termv (extractKwargs args ["db", "term"]))
    ∧ (extractKwargs args ["db", "term"]).lookup "usehistory" = some uv
    ∧ handle_epost c argsP
      = Except.map jsonDumps
          (c.epost_post dbvP idlP (dictGet argsP "webenv" .vnone)) := by
  refine ⟨?_, ?_, ?_⟩
  · simp [handle_esearch, getItem, hdb, hterm, dictGet, huse, hut, exc_bind_ok]
    cases c.esearch_search_with_history dbv termv (extractKwargs args ["db", "term"]) <;>
      simp [exc_bind_ok, exc_bind_error, exc_pure, Except.map]
  · exact lookup_extractKwargs args _ _ _ huse (by decide) hun
  · simp [handle_epost, getItem, hdbP, hidP, hlenP, exc_bind_ok]
    cases c.epost_post dbvP idlP (dictGet argsP "webenv" .vnone) <;>
      simp [exc_bind_ok, exc_bind_error, exc_pure, Except.map]

/-- C9 counterexample: `usehistory` is not stripped before forwarding —
a collaborator observing its keyword parameters sees it, and the
computed keyword mapping itself still contains it. -/
theorem c9_counterexample :
    handle_esearch usehistoryProbeClient
        [("db", .vstr "pubmed"), ("term", .vstr "x"), ("usehistory", .vbool true)]
      = Except.ok (jsonDumps (.vstr "kwargs include usehistory"))
    ∧ (extractKwargs
        [("db", .vstr "pubmed"), ("term", .vstr "x"), ("usehistory", .vbool true)]
        ["db", "term"]).lookup "usehistory" = some (.vbool true) :=
  ⟨rfl, rfl⟩

/-- C9 witness: the amended theorem instantiated at concrete mappings;
the `epost` mapping carries an extra key that never reaches the
collaborator. -/
theorem c9_witness :
    handle_esearch baseClient
        [("db", .vstr "pubmed"), ("term", .vstr "flu"), ("usehistory", .vbool true)]
      = Except.map jsonDumps
          (baseClient.esearch_search_with_history (.vstr "pubmed") (.vstr "flu")
            (extractKwargs
              [("db", .vstr "pubmed"), ("term", .vstr "flu"), ("usehistory", .vbool true)]
              ["db", "term"]))
    ∧ (extractKwargs
        [("db", .vstr "pubmed"), ("term", .vstr "flu"), ("usehistory", .vbool true)]
        ["db", "term"]).lookup "usehistory" = some (.vbool true)
    ∧ handle_epost baseClient
        [("db", .vstr "pubmed"), ("id_list", .vlist [.vstr "7"]), ("extra", .vstr "zzz")]
      = Except.map jsonDumps
          (baseClient.epost_post (.vstr "pubmed") (.vlist [.vstr "7"])
            (dictGet [("db", .vstr "pubmed"), ("id_list", .vlist [.vstr "7"]),
                      ("extra", .vstr "zzz")] "webenv" .vnone)) :=
  c9_kwargs_forwarding baseClient
    [("db", .vstr "pubmed"), ("term", .vstr "flu"), ("usehistory", .vbool true)]
    [("db", .vstr "pubmed"), ("id_list", .vlist [.vstr "7"]), ("extra", .vstr "zzz")]
    _ _ _ _ _ 1
    (by rfl) (by rfl) (by rfl) (by rfl) (by rfl) (by rfl) (by rfl) (by rfl)

/-! ## C10 -/

/-- C10: for `efetch`, `esummary` and `elink`, the history-reference
mode is selected only when both `webenv` and `query_key` are present; if
only one of the two is present together with `id_list`, the handler
takes the direct-identifier branch and the lone history key is forwarded
to the collaborator as an ordinary keyword parameter (it is in the
forwarded keyword mapping) rather than being rejected as an incomplete
history reference. -/
theorem c10_lone_history_key (c : Client) (args : Args)
    (dbv dbfromv idv kv : PyVal) (k : String)
    (hdb : args.lookup "db" = some dbv)
    (hdbfrom : args.lookup "dbfrom" = some dbfromv)
    (hhist : (hasKey args "webenv" && hasKey args "query_key") = false)
    (hk : k = "webenv" ∨ k = "query_key")
    (hkv : args.lookup k = some kv)
    (hkn : isNone kv = false)
    (hid : args.lookup "id_list" = some idv) :
    handle_efetch c args
      = c.efetch_fetch dbv idv (extractKwargs args ["db", "id_list"])
    ∧ handle_esummary c args
      = Except.map jsonDumps
          (c.esummary_summary dbv idv (extractKwargs args ["db", "id_list"]))
    ∧ handle_elink c args
      = Except.map jsonDumps
          (c.elink_link dbfromv dbv idv (extractKwargs args ["dbfrom", "db", "id_list"]))
    ∧ (extractKwargs args ["db", "id_list"]).lookup k = some kv
    ∧ (extractKwargs args ["dbfrom", "db", "id_list"]).lookup k = some kv := by
  refine ⟨?_, ?_, ?_, ?_, ?_⟩
  · simp [handle_efetch, getItem, hdb, hhist, hid, exc_bind_ok]
  · simp [handle_esummary, getItem, hdb, hhist, hid, exc_bind_ok]
    cases c.esummary_summary dbv idv (extractKwargs args ["db", "id_list"]) <;>
      simp [exc_bind_ok, exc_bind_error, exc_pure, Except.map]
  · simp [handle_elink, getItem, hdb, hdbfrom, hhist, hid, exc_bind_ok]
    cases c.elink_link dbfromv dbv idv (extractKwargs args ["dbfrom", "db", "id_list"]) <;>
      simp [exc_bind_ok, exc_bind_error, exc_pure, Except.map]
  · exact lookup_extractKwargs args _ _ _ hkv
      (by rcases hk with h | h <;> subst h <;> decide) hkn
  · exact lookup_extractKwargs args _ _ _ hkv
      (by rcases hk with h | h <;> subst h <;> decide) hkn

/-- C10 witness: the theorem instantiated at a mapping carrying `webenv`
but no `query_key` together with an identifier list. -/
theorem c10_witness :
    handle_efetch baseClient
        [("db", .vstr "pubmed"), ("dbfrom", .vstr "gene"),
         ("webenv", .vstr "W"), ("id_list", .vlist [.vstr "5"])]
      = baseClient.efetch_fetch (.vstr "pubmed") (.vlist [.vstr "5"])
          (extractKwargs
            [("db", .vstr "pubmed"), ("dbfrom", .vstr "gene"),
             ("webenv", .vstr "W"), ("id_list", .vlist [.vstr "5"])] ["db", "id_list"])
    ∧ handle_esummary baseClient
        [("db", .vstr "pubmed"), ("dbfrom", .vstr "gene"),
         ("webenv", .vstr "W"), ("id_list", .vlist [.vstr "5"])]
      = Except.map jsonDumps
          (baseClient.esummary_summary (.vstr "pubmed") (.vlist [.vstr "5"])
            (extractKwargs
              [("db", .vstr "pubmed"), ("dbfrom", .vstr "gene"),
               ("webenv", .vstr "W"), ("id_list", .vlist [.vstr "5"])] ["db", "id_list"]))
    ∧ handle_elink baseClient
        [("db", .vstr "pubmed"), ("dbfrom", .vstr "gene"),
         ("webenv", .vstr "W"), ("id_list", .vlist [.vstr "5"])]
      = Except.map jsonDumps
          (baseClient.elink_link (.vstr "gene") (.vstr "pubmed") (.vlist [.vstr "5"])
            (extractKwargs
              [("db", .vstr "pubmed"), ("dbfrom", .vstr "gene"),
               ("webenv", .vstr "W"), ("id_list", .vlist [.vstr "5"])]
              ["dbfrom", "db", "id_list"]))
    ∧ (extractKwargs
        [("db", .vstr "pubmed"), ("dbfrom", .vstr "gene"),
         ("webenv", .vstr "W"), ("id_list", .vlist [.vstr "5"])]
        ["db", "id_list"]).lookup "webenv" = some (.vstr "W")
    ∧ (extractKwargs
        [("db", .vstr "pubmed"), ("dbfrom", .vstr "gene"),
         ("webenv", .vstr "W"), ("id_list", .vlist [.vstr "5"])]
        ["dbfrom", "db", "id_list"]).lookup "webenv" = some (.vstr "W") :=
  c10_lone_history_key baseClient
    [("db", .vstr "pubmed"), ("dbfrom", .vstr "gene"),
     ("webenv", .vstr "W"), ("id_list", .vlist [.vstr "5"])]
    _ _ _ _ "webenv"
    (by rfl) (by rfl) (by rfl) (Or.inl rfl) (by rfl) (by rfl) (by rfl)

end NcbiMcp
